import Mathlib

/-!
Verification development for `tool/tsh/config.go` (teleport).

The file embeds the two components of the module:
  * `onConfigProxy`, the proxy-command adapter: it splits the proxy and
    target addresses with `net.SplitHostPort`, normalizes the target host by
    suffix stripping with `strings.TrimSuffix`, and builds the argument
    vector handed to the external SSH client;
  * `writeSSHConfig` / `onConfig`, the SSH-config block renderer driven by
    the fixed template constant `sshConfigTemplate`.

Go strings are modelled as `List Char`; the library functions the source
calls (`net.SplitHostPort`, `strings.TrimSuffix`, `text/template` execution
of the fixed template) are translated from their documented Go semantics.
-/

set_option autoImplicit false

namespace TshConfig

/-- Go strings, modelled as lists of characters. -/
abbrev GoStr := List Char

/-- Index of the first occurrence of `c` in `s` (Go `strings.IndexByte`),
`none` when absent. -/
def byteIndex (s : GoStr) (c : Char) : Option Nat :=
  match s with
  | [] => none
  | a :: t => if a = c then some 0 else (byteIndex t c).map (· + 1)

/-- Index of the last occurrence of `c` in `s` (Go `strings.LastIndexByte`),
`none` when absent. -/
def lastIndex (s : GoStr) (c : Char) : Option Nat :=
  match s with
  | [] => none
  | a :: t =>
    match lastIndex t c with
    | some i => some (i + 1)
    | none => if a = c then some 0 else none

/-- The failure reasons of Go `net.SplitHostPort` (`net.AddrError.Err`). -/
inductive AddrErrWhy where
  | missingPort
  | tooManyColons
  | missingRightBracket
  | missingBrackets
  | unexpectedRightBracket
deriving DecidableEq, Repr

/-- Go `net.AddrError`: the offending address together with the reason.
This is the error kind the spec calls AddressFormatError. -/
structure AddrError where
  addr : GoStr
  why : AddrErrWhy
deriving DecidableEq, Repr

/-- Final bracket sanity checks of Go `net.SplitHostPort`: after the host
has been extracted, no `[` may remain at or after position `j` and no `]`
at or after position `k`; on success the port is everything after the last
colon (position `i`). -/
def splitHostPortFinish (hostport host : GoStr) (i j k : Nat) :
    Except AddrError (GoStr × GoStr) :=
  if (byteIndex (hostport.drop j) '[').isSome then
    .error ⟨hostport, .missingBrackets⟩
  else if (byteIndex (hostport.drop k) ']').isSome then
    .error ⟨hostport, .unexpectedRightBracket⟩
  else
    .ok (host, hostport.drop (i + 1))

/-- Go `net.SplitHostPort`: split `host:port` (or `[host]:port`) at the
last colon. Faithful to the stdlib implementation: the port starts after
the last colon; a leading `[` selects the bracketed form whose closing `]`
must sit just before that colon; an unbracketed host may not itself
contain a colon; stray brackets are rejected. -/
def splitHostPort (hostport : GoStr) : Except AddrError (GoStr × GoStr) :=
  match lastIndex hostport ':' with
  | none => .error ⟨hostport, .missingPort⟩
  | some i =>
    if hostport.head? = some '[' then
      match byteIndex hostport ']' with
      | none => .error ⟨hostport, .missingRightBracket⟩
      | some endi =>
        if endi + 1 = hostport.length then
          .error ⟨hostport, .missingPort⟩
        else if endi + 1 = i then
          splitHostPortFinish hostport ((hostport.drop 1).take (endi - 1)) i 1 (endi + 1)
        else if hostport.get? (endi + 1) = some ':' then
          .error ⟨hostport, .tooManyColons⟩
        else
          .error ⟨hostport, .missingPort⟩
    else
      if (byteIndex (hostport.take i) ':').isSome then
        .error ⟨hostport, .tooManyColons⟩
      else
        splitHostPortFinish hostport (hostport.take i) i 0 0

/-- Go `strings.HasSuffix`. -/
def hasSuffix (s suffix : GoStr) : Bool :=
  suffix.isSuffixOf s

/-- Go `strings.TrimSuffix`: remove one trailing copy of `suffix` when
present, otherwise return `s` unchanged. -/
def trimSuffix (s suffix : GoStr) : GoStr :=
  if hasSuffix s suffix then s.take (s.length - suffix.length) else s

/-- The fields of `CLIConf` that `onConfigProxy` reads. -/
structure CLIConf where
  Proxy : GoStr
  ConfigProxyTarget : GoStr
  SiteName : GoStr

/-- The Go runtime identifier of the Windows operating system
(`constants.WindowsOS`, the value `runtime.GOOS` takes on Windows). -/
def windowsOS : GoStr := "windows".data

/-- `getDefaultSSHPath` from the source: the bundled OpenSSH client on
Windows, the standard Unix location everywhere else; a static choice on
the platform identifier, with no PATH search. -/
def getDefaultSSHPath (goos : GoStr) : GoStr :=
  if goos = windowsOS then "C:\\Windows\\System32\\OpenSSH\\ssh.exe".data
  else "/usr/bin/ssh".data

/-- An external command about to be run: executable path and argument
vector (`exec.Command(path, args...)`). -/
structure Command where
  path : GoStr
  args : List GoStr
deriving DecidableEq, Repr

/-- `onConfigProxy` from the source, up to the point where the child
process is handed to the operating system: parse both addresses, strip
the proxy-host suffix and then the site-name suffix from the target host,
and build the SSH client invocation. An address-parsing failure is
returned (Go returns the wrapped error) before any `Command` exists. -/
def onConfigProxy (goos : GoStr) (cf : CLIConf) : Except AddrError Command :=
  match splitHostPort cf.Proxy with
  | .error e => .error e
  | .ok (proxyHost, proxyPort) =>
    match splitHostPort cf.ConfigProxyTarget with
    | .error e => .error e
    | .ok (targetHost0, targetPort) =>
      let targetHost1 := trimSuffix targetHost0 ('.' :: proxyHost)
      let targetHost2 := trimSuffix targetHost1 ('.' :: cf.SiteName)
      let args : List GoStr :=
        ["-p".data, proxyPort, proxyHost, "-s".data,
          "proxy:".data ++ targetHost2 ++ ":".data ++ targetPort ++
            "@".data ++ cf.SiteName]
      .ok { path := getDefaultSSHPath goos, args := args }

/-- The field values substituted into `sshConfigTemplate`
(`hostConfigParameters` from the source). -/
structure hostConfigParameters where
  ClusterName : GoStr
  KnownHostsPath : GoStr
  IdentityFilePath : GoStr
  CertificateFilePath : GoStr
  ProxyHost : GoStr
  ProxyPort : GoStr
  TSHPath : GoStr

/-- The text produced by executing the fixed template constant
`sshConfigTemplate` against `p` (Go `text/template` semantics: literal
text is kept verbatim, each action is replaced by the value of the named
field). The template literal starts and ends with a newline. -/
def renderSSHConfigTemplate (p : hostConfigParameters) : GoStr :=
  "\n# Common flags for all ".data ++ p.ClusterName ++ " hosts\nHost *.".data ++
    p.ClusterName ++ " ".data ++ p.ProxyHost ++
    "\n    UserKnownHostsFile \"".data ++ p.KnownHostsPath ++
    "\"\n    IdentityFile \"".data ++ p.IdentityFilePath ++
    "\"\n    CertificateFile \"".data ++ p.CertificateFilePath ++
    "\"\n\n# Flags for all ".data ++ p.ClusterName ++
    " hosts except the proxy\nHost *.".data ++ p.ClusterName ++ " !".data ++
    p.ProxyHost ++ "\n    Port 3022\n    ProxyCommand ".data ++ p.TSHPath ++
    " config-proxy --proxy=".data ++ p.ProxyHost ++ ":".data ++ p.ProxyPort ++
    " %h:%p \"".data ++ p.ClusterName ++ "\"\n".data

/-- `writeSSHConfig` from the source: parse `sshConfigTemplate` and execute
it against `params`, appending the produced text to the string builder
`sb`. Parsing the fixed template constant succeeds, and execution against a
`strings.Builder` sink cannot fail, so the embedding is total. -/
def writeSSHConfig (sb : GoStr) (params : hostConfigParameters) : GoStr :=
  sb ++ renderSSHConfigTemplate params

/-- The external collaborators `onConfig` consults for file-system paths:
`profile.FullProfilePath`, `keypaths.KnownHostsPath`, `keypaths.UserKeyPath`
and `keypaths.SSHCertPath`. They are pure path computations; the embedding
keeps them abstract. -/
structure PathHelpers where
  fullProfilePath : GoStr → GoStr
  knownHostsPath : GoStr → GoStr
  userKeyPath : GoStr → GoStr → GoStr → GoStr
  sshCertPath : GoStr → GoStr → GoStr → GoStr → GoStr

/-- The data `onConfig` receives from its collaborators: the client
configuration (`tc.Config`), the cluster topology discovered over the
proxy connection, and the path of the running executable. -/
structure OnConfigInputs where
  sshProxyAddr : GoStr
  webProxyAddr : GoStr
  username : GoStr
  keysDir : GoStr
  rootClusterName : GoStr
  leafClusterNames : List GoStr
  executablePath : GoStr

/-- The `hostConfigParameters` value `onConfig` builds for the cluster
named `name`: the known-hosts and identity paths are computed once, and
the certificate path is always derived from the ROOT cluster name. -/
def onConfigParams (ph : PathHelpers) (inp : OnConfigInputs)
    (proxyHost proxyPort name : GoStr) : hostConfigParameters :=
  let keysDir := ph.fullProfilePath inp.keysDir
  { ClusterName := name
    KnownHostsPath := ph.knownHostsPath keysDir
    IdentityFilePath := ph.userKeyPath keysDir proxyHost inp.username
    CertificateFilePath := ph.sshCertPath keysDir proxyHost inp.username inp.rootClusterName
    ProxyHost := proxyHost
    ProxyPort := proxyPort
    TSHPath := inp.executablePath }

/-- `onConfig` from the source, restricted to the text it emits: split the
SSH proxy address, start the builder with a blank line and the header
comment, render the root cluster's block, render one block per leaf
cluster in discovery order, and close with the footer comment. -/
def onConfig (ph : PathHelpers) (inp : OnConfigInputs) : Except AddrError GoStr :=
  match splitHostPort inp.sshProxyAddr with
  | .error e => .error e
  | .ok (proxyHost, proxyPort) =>
    let sb : GoStr := "\n".data
    let sb := sb ++ "#\n# Begin generated Teleport configuration for ".data ++
      inp.webProxyAddr ++ " from `tsh config`\n#\n".data
    let sb := writeSSHConfig sb (onConfigParams ph inp proxyHost proxyPort inp.rootClusterName)
    let sb := inp.leafClusterNames.foldl
      (fun sb leaf => writeSSHConfig sb (onConfigParams ph inp proxyHost proxyPort leaf)) sb
    .ok (sb ++ "\n# End generated Teleport configuration\n".data)

/-- The target-host normalization performed by `onConfigProxy`
(source lines 169-170): first strip a trailing `"." + proxyHost`, then
strip a trailing `"." + siteName`, in that order. -/
def stripTargetHost (targetHost proxyHost siteName : GoStr) : GoStr :=
  trimSuffix (trimSuffix targetHost ('.' :: proxyHost)) ('.' :: siteName)

/-- The lines of one rendered SSH-config block, as they stand between the
newlines of the template: a blank line, a comment, the common-flags `Host`
stanza (pattern `*.<ClusterName> <ProxyHost>`) with its three quoted
settings, a blank line, a comment, and the tunneled-flags `Host` stanza
(pattern `*.<ClusterName> !<ProxyHost>`) with `Port 3022` and the
`ProxyCommand` line carrying literal `%h:%p` placeholders; the trailing
newline of the template contributes a final empty line. -/
def renderedConfigLines (p : hostConfigParameters) : List GoStr :=
  [[],
    "# Common flags for all ".data ++ p.ClusterName ++ " hosts".data,
    "Host *.".data ++ p.ClusterName ++ " ".data ++ p.ProxyHost,
    "    UserKnownHostsFile \"".data ++ p.KnownHostsPath ++ "\"".data,
    "    IdentityFile \"".data ++ p.IdentityFilePath ++ "\"".data,
    "    CertificateFile \"".data ++ p.CertificateFilePath ++ "\"".data,
    [],
    "# Flags for all ".data ++ p.ClusterName ++ " hosts except the proxy".data,
    "Host *.".data ++ p.ClusterName ++ " !".data ++ p.ProxyHost,
    "    Port 3022".data,
    "    ProxyCommand ".data ++ p.TSHPath ++ " config-proxy --proxy=".data ++
      p.ProxyHost ++ ":".data ++ p.ProxyPort ++ " %h:%p \"".data ++
      p.ClusterName ++ "\"".data,
    []]

/-- Concrete path helpers used to exercise `onConfig`. -/
def examplePathHelpers : PathHelpers :=
  ⟨fun d => d,
    fun d => d ++ "/known_hosts".data,
    fun d h u => d ++ "/keys/".data ++ h ++ "/".data ++ u,
    fun d h u c => d ++ "/keys/".data ++ h ++ "/".data ++ u ++ "-ssh/".data ++
      c ++ "-cert.pub".data⟩

/-- Concrete collaborator inputs used to exercise `onConfig`. -/
def exampleOnConfigInputs : OnConfigInputs :=
  ⟨"proxy.example.com:3023".data, "proxy.example.com:3080".data, "alice".data,
    "/home/alice/.tsh".data, "main".data, ["leaf1".data, "leaf2".data],
    "/bin/tsh".data⟩

example :
    splitHostPort "proxy.example.com:443".data =
      .ok ("proxy.example.com".data, "443".data) := rfl

example :
    splitHostPort "no-port-here".data =
      .error ⟨"no-port-here".data, .missingPort⟩ := rfl

example :
    splitHostPort "[::1]:80".data = .ok ("::1".data, "80".data) := rfl

example :
    splitHostPort "a:b:80".data =
      .error ⟨"a:b:80".data, .tooManyColons⟩ := rfl

example :
    onConfigProxy "linux".data
      ⟨"proxy.example.com:443".data, "node1.proxy.example.com:3022".data,
        "main".data⟩ =
      .ok ⟨"/usr/bin/ssh".data,
        ["-p".data, "443".data, "proxy.example.com".data, "-s".data,
          "proxy:node1:3022@main".data]⟩ := rfl

/-- `trimSuffix` removes exactly one trailing copy of the suffix when the
input ends with it. -/
theorem trimSuffix_append (x suf : GoStr) : trimSuffix (x ++ suf) suf = x := by
  have hs : hasSuffix (x ++ suf) suf = true := by
    simp [hasSuffix]
  rw [trimSuffix, if_pos hs, List.length_append, Nat.add_sub_cancel]
  exact List.take_left x suf

/-- C1: whenever both `host:port` splits succeed, `onConfigProxy` hands the
external SSH client exactly the argument vector
`["-p", proxyPort, proxyHost, "-s", "proxy:" ++ strippedHost ++ ":" ++ targetPort ++ "@" ++ siteName]`. -/
theorem C1_onConfigProxy_args (goos : GoStr) (cf : CLIConf) (ph pp th tp : GoStr)
    (h1 : splitHostPort cf.Proxy = .ok (ph, pp))
    (h2 : splitHostPort cf.ConfigProxyTarget = .ok (th, tp)) :
    onConfigProxy goos cf = .ok
      ⟨getDefaultSSHPath goos,
        ["-p".data, pp, ph, "-s".data,
          "proxy:".data ++ trimSuffix (trimSuffix th ('.' :: ph)) ('.' :: cf.SiteName) ++
            ":".data ++ tp ++ "@".data ++ cf.SiteName]⟩ := by
  unfold onConfigProxy
  rw [h1, h2]

/-- C1 witness: proxy `proxy.example.com:443`, target
`node1.proxy.example.com:3022`, site `main` produce the vector
`["-p","443","proxy.example.com","-s","proxy:node1:3022@main"]`. -/
theorem C1_onConfigProxy_args_witness :
    onConfigProxy "linux".data
      ⟨"proxy.example.com:443".data, "node1.proxy.example.com:3022".data, "main".data⟩ =
      .ok ⟨"/usr/bin/ssh".data,
        ["-p".data, "443".data, "proxy.example.com".data, "-s".data,
          "proxy:node1:3022@main".data]⟩ :=
  (C1_onConfigProxy_args "linux".data
    ⟨"proxy.example.com:443".data, "node1.proxy.example.com:3022".data, "main".data⟩
    "proxy.example.com".data "443".data "node1.proxy.example.com".data "3022".data
    rfl rfl).trans rfl

/-- C2: the parsed target host is normalized by `stripTargetHost`: the
trailing `"." ++ proxyHost` suffix is stripped first, the trailing
`"." ++ siteName` suffix second. -/
theorem C2_strip_order (goos : GoStr) (cf : CLIConf) (ph pp th tp : GoStr)
    (h1 : splitHostPort cf.Proxy = .ok (ph, pp))
    (h2 : splitHostPort cf.ConfigProxyTarget = .ok (th, tp)) :
    onConfigProxy goos cf = .ok
      ⟨getDefaultSSHPath goos,
        ["-p".data, pp, ph, "-s".data,
          "proxy:".data ++ stripTargetHost th ph cf.SiteName ++
            ":".data ++ tp ++ "@".data ++ cf.SiteName]⟩ := by
  unfold onConfigProxy stripTargetHost
  rw [h1, h2]

/-- C2 witness: target `node1.main:3022` with site `main` and proxy host
`proxy.example.com` yields stripped host `node1`. -/
theorem C2_strip_order_witness :
    onConfigProxy "linux".data
      ⟨"proxy.example.com:443".data, "node1.main:3022".data, "main".data⟩ =
      .ok ⟨"/usr/bin/ssh".data,
        ["-p".data, "443".data, "proxy.example.com".data, "-s".data,
          "proxy:node1:3022@main".data]⟩ :=
  (C2_strip_order "linux".data
    ⟨"proxy.example.com:443".data, "node1.main:3022".data, "main".data⟩
    "proxy.example.com".data "443".data "node1.main".data "3022".data
    rfl rfl).trans rfl

/-- C3: a malformed proxy or target address makes `onConfigProxy` return
the address error; no `Command` value is ever built in that case, so no
child process can be spawned. The input `no-port-here` (no colon) fails
with the missing-port address error. -/
theorem C3_error_before_spawn :
    (∀ (goos : GoStr) (cf : CLIConf) (e : AddrError),
      splitHostPort cf.Proxy = .error e → onConfigProxy goos cf = .error e) ∧
    (∀ (goos : GoStr) (cf : CLIConf) (ph pp : GoStr) (e : AddrError),
      splitHostPort cf.Proxy = .ok (ph, pp) →
      splitHostPort cf.ConfigProxyTarget = .error e →
      onConfigProxy goos cf = .error e) ∧
    splitHostPort "no-port-here".data =
      .error ⟨"no-port-here".data, .missingPort⟩ := by
  refine ⟨?_, ?_, rfl⟩
  · intro goos cf e h
    unfold onConfigProxy
    rw [h]
  · intro goos cf ph pp e h1 h2
    unfold onConfigProxy
    rw [h1, h2]

/-- C3 witness: `no-port-here` in either address position makes
`onConfigProxy` fail with the missing-port address error. -/
theorem C3_error_before_spawn_witness :
    onConfigProxy "linux".data
      ⟨"no-port-here".data, "node1:3022".data, "main".data⟩ =
      .error ⟨"no-port-here".data, .missingPort⟩ ∧
    onConfigProxy "linux".data
      ⟨"proxy.example.com:443".data, "no-port-here".data, "main".data⟩ =
      .error ⟨"no-port-here".data, .missingPort⟩ :=
  ⟨C3_error_before_spawn.1 "linux".data
      ⟨"no-port-here".data, "node1:3022".data, "main".data⟩
      ⟨"no-port-here".data, .missingPort⟩ rfl,
    C3_error_before_spawn.2.1 "linux".data
      ⟨"proxy.example.com:443".data, "no-port-here".data, "main".data⟩
      "proxy.example.com".data "443".data
      ⟨"no-port-here".data, .missingPort⟩ rfl rfl⟩

/-- C7: rendering is deterministic (equal parameters give byte-identical
output) and writing twice into the same builder appends the very same
block twice; the output depends on nothing but the parameter value. -/
theorem C7_render_deterministic :
    (∀ p q : hostConfigParameters,
      p = q → renderSSHConfigTemplate p = renderSSHConfigTemplate q) ∧
    (∀ (sb : GoStr) (p : hostConfigParameters),
      writeSSHConfig sb p = sb ++ renderSSHConfigTemplate p ∧
      writeSSHConfig (writeSSHConfig sb p) p =
        sb ++ renderSSHConfigTemplate p ++ renderSSHConfigTemplate p) :=
  ⟨fun _ _ h => h ▸ rfl, fun _ _ => ⟨rfl, rfl⟩⟩

/-- C7 witness: two renderings of one concrete parameter value coincide. -/
theorem C7_render_deterministic_witness :
    renderSSHConfigTemplate
      ⟨"main".data, "kh".data, "id".data, "cert".data, "proxy.example.com".data,
        "3080".data, "/bin/tsh".data⟩ =
    renderSSHConfigTemplate
      ⟨"main".data, "kh".data, "id".data, "cert".data, "proxy.example.com".data,
        "3080".data, "/bin/tsh".data⟩ :=
  C7_render_deterministic.1
    ⟨"main".data, "kh".data, "id".data, "cert".data, "proxy.example.com".data,
      "3080".data, "/bin/tsh".data⟩
    ⟨"main".data, "kh".data, "id".data, "cert".data, "proxy.example.com".data,
      "3080".data, "/bin/tsh".data⟩ rfl

/-- C8: the SSH client path is a static per-platform choice: the bundled
OpenSSH path on Windows, `/usr/bin/ssh` on every other platform. -/
theorem C8_default_ssh_path :
    getDefaultSSHPath windowsOS = "C:\\Windows\\System32\\OpenSSH\\ssh.exe".data ∧
    ∀ goos : GoStr, goos ≠ windowsOS → getDefaultSSHPath goos = "/usr/bin/ssh".data :=
  ⟨rfl, fun _ h => if_neg h⟩

/-- C8 witness: on `linux` the path is `/usr/bin/ssh`. -/
theorem C8_default_ssh_path_witness :
    getDefaultSSHPath "linux".data = "/usr/bin/ssh".data :=
  C8_default_ssh_path.2 "linux".data (by decide)

/-- C9: each stripping step removes at most one trailing copy of its
suffix (the result is the input, or the input minus one suffix length),
and a doubled suffix keeps its inner copy; concretely, target host
`node1.main.main` with site `main` is stripped to `node1.main`. -/
theorem C9_strip_at_most_once :
    (∀ s suf : GoStr,
      trimSuffix s suf = s ∨ trimSuffix s suf = s.take (s.length - suf.length)) ∧
    (∀ x suf : GoStr, trimSuffix (x ++ suf ++ suf) suf = x ++ suf) ∧
    onConfigProxy "linux".data
      ⟨"proxy.example.com:443".data, "node1.main.main:3022".data, "main".data⟩ =
      .ok ⟨"/usr/bin/ssh".data,
        ["-p".data, "443".data, "proxy.example.com".data, "-s".data,
          "proxy:node1.main:3022@main".data]⟩ := by
  refine ⟨?_, fun x suf => trimSuffix_append (x ++ suf) suf, rfl⟩
  intro s suf
  unfold trimSuffix
  split
  · exact Or.inr rfl
  · exact Or.inl rfl

/-- C10: with the empty site name the site step strips one trailing dot
(the suffix tested is `"." ++ ""`), and the final argument ends in `"@"`;
concretely, target `node1.:3022` with empty site gives
`proxy:node1:3022@`. -/
theorem C10_empty_site :
    (∀ x : GoStr, trimSuffix (x ++ ".".data) ('.' :: ([] : GoStr)) = x) ∧
    onConfigProxy "linux".data
      ⟨"proxy.example.com:443".data, "node1.:3022".data, ([] : GoStr)⟩ =
      .ok ⟨"/usr/bin/ssh".data,
        ["-p".data, "443".data, "proxy.example.com".data, "-s".data,
          "proxy:node1:3022@".data]⟩ :=
  ⟨fun x => trimSuffix_append x ['.'], rfl⟩

/-- A successful `splitHostPortFinish` returns exactly the extracted host
and the text after the last colon. -/
theorem splitHostPortFinish_ok {hostport host h p : GoStr} {i j k : Nat}
    (heq : splitHostPortFinish hostport host i j k = .ok (h, p)) :
    h = host ∧ p = hostport.drop (i + 1) := by
  unfold splitHostPortFinish at heq
  split at heq
  · exact absurd heq (by simp)
  · split at heq
    · exact absurd heq (by simp)
    · simp only [Except.ok.injEq, Prod.mk.injEq] at heq
      exact ⟨heq.1.symm, heq.2.symm⟩

/-- C5 counterexample: for the bracketed address `[::1]:80` the split
succeeds and the last colon sits at index 5, yet the returned host `::1`
is not the text before the last colon (which is `[::1]`). -/
theorem C5_counterexample :
    splitHostPort "[::1]:80".data = .ok ("::1".data, "80".data) ∧
    lastIndex "[::1]:80".data ':' = some 5 ∧
    "[::1]:80".data.take 5 ≠ "::1".data := by
  exact ⟨rfl, rfl, by decide⟩

/-- C5 (amended): address splitting fails with the missing-port address
error when no colon is present; every successful split puts the text after
the last colon in the port, and the host is the text before the last colon
unless the address starts with a bracket, in which case it is the text
between the brackets. -/
theorem C5_split_at_last_colon :
    (∀ s : GoStr, lastIndex s ':' = none →
      splitHostPort s = .error ⟨s, .missingPort⟩) ∧
    (∀ (s h p : GoStr), splitHostPort s = .ok (h, p) →
      ∃ i, lastIndex s ':' = some i ∧ p = s.drop (i + 1) ∧
        (s.head? ≠ some '[' → h = s.take i) ∧
        (s.head? = some '[' →
          ∃ endi, byteIndex s ']' = some endi ∧ endi + 1 = i ∧
            h = (s.drop 1).take (endi - 1))) := by
  constructor
  · intro s hnone
    unfold splitHostPort
    rw [hnone]
  · intro s h p heq
    unfold splitHostPort at heq
    split at heq
    · exact absurd heq (by simp)
    · rename_i i hlast
      by_cases hbr : s.head? = some '['
      · rw [if_pos hbr] at heq
        split at heq
        · exact absurd heq (by simp)
        · rename_i endi hend
          split at heq
          · exact absurd heq (by simp)
          · split at heq
            · rename_i hi
              obtain ⟨hh, hp⟩ := splitHostPortFinish_ok heq
              exact ⟨i, hlast, hp, fun hc => absurd hbr hc,
                fun _ => ⟨endi, hend, hi, hh⟩⟩
            · split at heq
              · exact absurd heq (by simp)
              · exact absurd heq (by simp)
      · rw [if_neg hbr] at heq
        split at heq
        · exact absurd heq (by simp)
        · obtain ⟨hh, hp⟩ := splitHostPortFinish_ok heq
          exact ⟨i, hlast, hp, fun _ => hh, fun hc => absurd hc hbr⟩

/-- C5 witness: `nocolon` has no colon and fails; `a:80` splits into host
`a` (the text before the last colon) and port `80`. -/
theorem C5_split_at_last_colon_witness :
    splitHostPort "nocolon".data = .error ⟨"nocolon".data, .missingPort⟩ ∧
    (∃ i, lastIndex "a:80".data ':' = some i ∧
      "80".data = "a:80".data.drop (i + 1) ∧
      ("a:80".data.head? ≠ some '[' → "a".data = "a:80".data.take i) ∧
      ("a:80".data.head? = some '[' →
        ∃ endi, byteIndex "a:80".data ']' = some endi ∧ endi + 1 = i ∧
          "a".data = ("a:80".data.drop 1).take (endi - 1))) :=
  ⟨C5_split_at_last_colon.1 "nocolon".data rfl,
    C5_split_at_last_colon.2 "a:80".data "a".data "80".data rfl⟩

/-- Appending one rendered block per list element with a fold equals
appending the concatenation of the individually rendered blocks. -/
theorem foldl_writeSSHConfig (f : GoStr → hostConfigParameters) (l : List GoStr) (sb : GoStr) :
    l.foldl (fun sb leaf => writeSSHConfig sb (f leaf)) sb =
      sb ++ (l.map (fun leaf => renderSSHConfigTemplate (f leaf))).flatten := by
  induction l generalizing sb with
  | nil => simp
  | cons a t ih =>
    rw [List.foldl_cons, ih]
    simp [writeSSHConfig, List.append_assoc]

/-- C6: when the proxy address splits, the emitted text is, in order, a
leading blank line, the header comment naming the web proxy address, the
root cluster's block, one block per leaf cluster in discovery order, and
the footer comment; every leaf block reuses the root block's known-hosts
path, identity path, and root-cluster-derived certificate path. -/
theorem C6_onConfig_layout (ph : PathHelpers) (inp : OnConfigInputs)
    (proxyHost proxyPort : GoStr)
    (hsp : splitHostPort inp.sshProxyAddr = .ok (proxyHost, proxyPort)) :
    (onConfig ph inp = .ok
      ("\n".data ++ "#\n# Begin generated Teleport configuration for ".data ++
        inp.webProxyAddr ++ " from `tsh config`\n#\n".data ++
        renderSSHConfigTemplate
          (onConfigParams ph inp proxyHost proxyPort inp.rootClusterName) ++
        (inp.leafClusterNames.map (fun leaf =>
          renderSSHConfigTemplate (onConfigParams ph inp proxyHost proxyPort leaf))).flatten ++
        "\n# End generated Teleport configuration\n".data)) ∧
    ∀ leaf : GoStr,
      (onConfigParams ph inp proxyHost proxyPort leaf).KnownHostsPath =
        (onConfigParams ph inp proxyHost proxyPort inp.rootClusterName).KnownHostsPath ∧
      (onConfigParams ph inp proxyHost proxyPort leaf).IdentityFilePath =
        (onConfigParams ph inp proxyHost proxyPort inp.rootClusterName).IdentityFilePath ∧
      (onConfigParams ph inp proxyHost proxyPort leaf).CertificateFilePath =
        ph.sshCertPath (ph.fullProfilePath inp.keysDir) proxyHost inp.username
          inp.rootClusterName := by
  refine ⟨?_, fun leaf => ⟨rfl, rfl, rfl⟩⟩
  unfold onConfig
  split
  · rename_i e heq
    rw [hsp] at heq
    exact absurd heq (by simp)
  · rename_i ph' pp' heq
    rw [hsp] at heq
    simp only [Except.ok.injEq, Prod.mk.injEq] at heq
    obtain ⟨h1, h2⟩ := heq
    subst h1
    subst h2
    simp only [Except.ok.injEq]
    rw [foldl_writeSSHConfig (fun leaf => onConfigParams ph inp proxyHost proxyPort leaf)]
    simp [writeSSHConfig, List.append_assoc]

/-- C6 witness: the layout theorem at concrete path helpers and inputs
with two leaf clusters. -/
theorem C6_onConfig_layout_witness :
    (onConfig examplePathHelpers exampleOnConfigInputs = .ok
      ("\n".data ++ "#\n# Begin generated Teleport configuration for ".data ++
        exampleOnConfigInputs.webProxyAddr ++ " from `tsh config`\n#\n".data ++
        renderSSHConfigTemplate
          (onConfigParams examplePathHelpers exampleOnConfigInputs
            "proxy.example.com".data "3023".data
            exampleOnConfigInputs.rootClusterName) ++
        (exampleOnConfigInputs.leafClusterNames.map (fun leaf =>
          renderSSHConfigTemplate
            (onConfigParams examplePathHelpers exampleOnConfigInputs
              "proxy.example.com".data "3023".data leaf))).flatten ++
        "\n# End generated Teleport configuration\n".data)) ∧
    (onConfigParams examplePathHelpers exampleOnConfigInputs
        "proxy.example.com".data "3023".data "leaf1".data).KnownHostsPath =
      (onConfigParams examplePathHelpers exampleOnConfigInputs
        "proxy.example.com".data "3023".data
        exampleOnConfigInputs.rootClusterName).KnownHostsPath :=
  ⟨(C6_onConfig_layout examplePathHelpers exampleOnConfigInputs
      "proxy.example.com".data "3023".data rfl).1,
    ((C6_onConfig_layout examplePathHelpers exampleOnConfigInputs
      "proxy.example.com".data "3023".data rfl).2 "leaf1".data).1⟩

/-- A list without newlines satisfies the splitting predicate nowhere. -/
theorem no_newline_chars {l : GoStr} (h : '\n' ∉ l) :
    ∀ x ∈ l, ¬((x == '\n') = true) := by
  intro x hx hbeq
  rw [beq_iff_eq] at hbeq
  exact h (hbeq ▸ hx)

/-- Newline-freeness is preserved by concatenation. -/
theorem no_newline_append {a b : GoStr} (ha : '\n' ∉ a) (hb : '\n' ∉ b) :
    '\n' ∉ a ++ b :=
  fun h => Or.elim (List.mem_append.mp h) ha hb

/-- A `Bool` prefix test fails when the heads differ. -/
theorem isPrefixOf_cons_ne {a b : Char} {s u : GoStr} (hab : a ≠ b) :
    ((a :: s).isPrefixOf (b :: u)) = false := by
  have hf : (a == b) = false := beq_eq_false_iff_ne.mpr hab
  simp [List.isPrefixOf, hf]

/-- A list is a `Bool`-test prefix of itself followed by anything. -/
theorem isPrefixOf_append_self (a t : GoStr) : (a.isPrefixOf (a ++ t)) = true := by
  induction a with
  | nil => simp [List.isPrefixOf]
  | cons x xs ih => simp [List.isPrefixOf, ih]

set_option maxRecDepth 8192

/-- The rendered template text, re-associated to expose each newline
between the twelve line fragments. -/
theorem renderSSHConfigTemplate_decomp (p : hostConfigParameters) :
    renderSSHConfigTemplate p =
      '\n' ::
      (("# Common flags for all ".data ++ p.ClusterName ++ " hosts".data) ++ '\n' ::
      (("Host *.".data ++ p.ClusterName ++ " ".data ++ p.ProxyHost) ++ '\n' ::
      (("    UserKnownHostsFile \"".data ++ p.KnownHostsPath ++ "\"".data) ++ '\n' ::
      (("    IdentityFile \"".data ++ p.IdentityFilePath ++ "\"".data) ++ '\n' ::
      (("    CertificateFile \"".data ++ p.CertificateFilePath ++ "\"".data) ++ '\n' ::
      ('\n' ::
      (("# Flags for all ".data ++ p.ClusterName ++ " hosts except the proxy".data) ++ '\n' ::
      (("Host *.".data ++ p.ClusterName ++ " !".data ++ p.ProxyHost) ++ '\n' ::
      (("    Port 3022".data) ++ '\n' ::
      (("    ProxyCommand ".data ++ p.TSHPath ++ " config-proxy --proxy=".data ++
          p.ProxyHost ++ ":".data ++ p.ProxyPort ++ " %h:%p \"".data ++
          p.ClusterName ++ "\"".data) ++ '\n' ::
      ([] : GoStr))))))))))) := by
  simp [renderSSHConfigTemplate, List.append_assoc]

/-- C4: splitting a rendered block on newlines yields exactly the twelve
expected lines — in particular exactly two `Host` stanzas, the first with
pattern `*.<ClusterName> <ProxyHost>` followed by the three double-quoted
path settings, the second with pattern `*.<ClusterName> !<ProxyHost>`
followed by `Port 3022` and the `ProxyCommand` line whose `%h:%p`
placeholders stay literal — provided the parameter fields contain no
newline (the data-model invariant for valid parameters). -/
theorem C4_template_structure (p : hostConfigParameters)
    (hCN : '\n' ∉ p.ClusterName) (hKH : '\n' ∉ p.KnownHostsPath)
    (hIF : '\n' ∉ p.IdentityFilePath) (hCF : '\n' ∉ p.CertificateFilePath)
    (hPH : '\n' ∉ p.ProxyHost) (hPP : '\n' ∉ p.ProxyPort)
    (hTSH : '\n' ∉ p.TSHPath) :
    (renderSSHConfigTemplate p).splitOn '\n' = renderedConfigLines p ∧
    (renderedConfigLines p).filter (fun l => "Host ".data.isPrefixOf l) =
      ["Host *.".data ++ p.ClusterName ++ " ".data ++ p.ProxyHost,
        "Host *.".data ++ p.ClusterName ++ " !".data ++ p.ProxyHost] := by
  have hsep : (('\n' : Char) == '\n') = true := by decide
  have n1 : '\n' ∉ ("# Common flags for all ".data : GoStr) := by decide
  have n2 : '\n' ∉ (" hosts".data : GoStr) := by decide
  have n3 : '\n' ∉ ("Host *.".data : GoStr) := by decide
  have n4 : '\n' ∉ (" ".data : GoStr) := by decide
  have n5 : '\n' ∉ ("    UserKnownHostsFile \"".data : GoStr) := by decide
  have n6 : '\n' ∉ ("\"".data : GoStr) := by decide
  have n7 : '\n' ∉ ("    IdentityFile \"".data : GoStr) := by decide
  have n8 : '\n' ∉ ("    CertificateFile \"".data : GoStr) := by decide
  have n9 : '\n' ∉ ("# Flags for all ".data : GoStr) := by decide
  have n10 : '\n' ∉ (" hosts except the proxy".data : GoStr) := by decide
  have n11 : '\n' ∉ (" !".data : GoStr) := by decide
  have n12 : '\n' ∉ ("    ProxyCommand ".data : GoStr) := by decide
  have n13 : '\n' ∉ (" config-proxy --proxy=".data : GoStr) := by decide
  have n14 : '\n' ∉ (":".data : GoStr) := by decide
  have n15 : '\n' ∉ (" %h:%p \"".data : GoStr) := by decide
  have h2 : '\n' ∉ "# Common flags for all ".data ++ p.ClusterName ++ " hosts".data :=
    no_newline_append (no_newline_append n1 hCN) n2
  have h3 : '\n' ∉ "Host *.".data ++ p.ClusterName ++ " ".data ++ p.ProxyHost :=
    no_newline_append (no_newline_append (no_newline_append n3 hCN) n4) hPH
  have h4 : '\n' ∉ "    UserKnownHostsFile \"".data ++ p.KnownHostsPath ++ "\"".data :=
    no_newline_append (no_newline_append n5 hKH) n6
  have h5 : '\n' ∉ "    IdentityFile \"".data ++ p.IdentityFilePath ++ "\"".data :=
    no_newline_append (no_newline_append n7 hIF) n6
  have h6 : '\n' ∉ "    CertificateFile \"".data ++ p.CertificateFilePath ++ "\"".data :=
    no_newline_append (no_newline_append n8 hCF) n6
  have h8 : '\n' ∉ "# Flags for all ".data ++ p.ClusterName ++ " hosts except the proxy".data :=
    no_newline_append (no_newline_append n9 hCN) n10
  have h9 : '\n' ∉ "Host *.".data ++ p.ClusterName ++ " !".data ++ p.ProxyHost :=
    no_newline_append (no_newline_append (no_newline_append n3 hCN) n11) hPH
  have h10 : '\n' ∉ ("    Port 3022".data : GoStr) := by decide
  have h11 : '\n' ∉ "    ProxyCommand ".data ++ p.TSHPath ++ " config-proxy --proxy=".data ++
      p.ProxyHost ++ ":".data ++ p.ProxyPort ++ " %h:%p \"".data ++
      p.ClusterName ++ "\"".data :=
    no_newline_append (no_newline_append (no_newline_append (no_newline_append
      (no_newline_append (no_newline_append (no_newline_append
        (no_newline_append n12 hTSH) n13) hPH) n14) hPP) n15) hCN) n6
  constructor
  · rw [renderSSHConfigTemplate_decomp]
    simp only [List.splitOn]
    rw [List.splitOnP_cons, if_pos hsep]
    rw [List.splitOnP_first _ _ (no_newline_chars h2) '\n' hsep]
    rw [List.splitOnP_first _ _ (no_newline_chars h3) '\n' hsep]
    rw [List.splitOnP_first _ _ (no_newline_chars h4) '\n' hsep]
    rw [List.splitOnP_first _ _ (no_newline_chars h5) '\n' hsep]
    rw [List.splitOnP_first _ _ (no_newline_chars h6) '\n' hsep]
    rw [List.splitOnP_cons, if_pos hsep]
    rw [List.splitOnP_first _ _ (no_newline_chars h8) '\n' hsep]
    rw [List.splitOnP_first _ _ (no_newline_chars h9) '\n' hsep]
    rw [List.splitOnP_first _ _ (no_newline_chars h10) '\n' hsep]
    rw [List.splitOnP_first _ _ (no_newline_chars h11) '\n' hsep]
    rw [List.splitOnP_nil]
    rfl
  · have hF2 : ("Host ".data.isPrefixOf
        ("# Common flags for all ".data ++ p.ClusterName ++ " hosts".data)) = false :=
      isPrefixOf_cons_ne (by decide)
    have hF3 : ("Host ".data.isPrefixOf
        ("Host *.".data ++ p.ClusterName ++ " ".data ++ p.ProxyHost)) = true :=
      isPrefixOf_append_self "Host ".data _
    have hF4 : ("Host ".data.isPrefixOf
        ("    UserKnownHostsFile \"".data ++ p.KnownHostsPath ++ "\"".data)) = false :=
      isPrefixOf_cons_ne (by decide)
    have hF5 : ("Host ".data.isPrefixOf
        ("    IdentityFile \"".data ++ p.IdentityFilePath ++ "\"".data)) = false :=
      isPrefixOf_cons_ne (by decide)
    have hF6 : ("Host ".data.isPrefixOf
        ("    CertificateFile \"".data ++ p.CertificateFilePath ++ "\"".data)) = false :=
      isPrefixOf_cons_ne (by decide)
    have hF8 : ("Host ".data.isPrefixOf
        ("# Flags for all ".data ++ p.ClusterName ++ " hosts except the proxy".data)) = false :=
      isPrefixOf_cons_ne (by decide)
    have hF9 : ("Host ".data.isPrefixOf
        ("Host *.".data ++ p.ClusterName ++ " !".data ++ p.ProxyHost)) = true :=
      isPrefixOf_append_self "Host ".data _
    have hF11 : ("Host ".data.isPrefixOf
        ("    ProxyCommand ".data ++ p.TSHPath ++ " config-proxy --proxy=".data ++
          p.ProxyHost ++ ":".data ++ p.ProxyPort ++ " %h:%p \"".data ++
          p.ClusterName ++ "\"".data)) = false :=
      isPrefixOf_cons_ne (by decide)
    simp only [renderedConfigLines, List.filter_cons, List.filter_nil,
      hF2, hF3, hF4, hF5, hF6, hF8, hF9, hF11]
    simp

/-- C4 witness: the structure theorem at a concrete parameter value. -/
theorem C4_template_structure_witness :
    (renderSSHConfigTemplate
        ⟨"main".data, "/kh path".data, "/id".data, "/cert".data,
          "proxy.example.com".data, "3080".data, "/bin/tsh".data⟩).splitOn '\n' =
      renderedConfigLines
        ⟨"main".data, "/kh path".data, "/id".data, "/cert".data,
          "proxy.example.com".data, "3080".data, "/bin/tsh".data⟩ ∧
    (renderedConfigLines
        ⟨"main".data, "/kh path".data, "/id".data, "/cert".data,
          "proxy.example.com".data, "3080".data, "/bin/tsh".data⟩).filter
        (fun l => "Host ".data.isPrefixOf l) =
      ["Host *.".data ++ "main".data ++ " ".data ++ "proxy.example.com".data,
        "Host *.".data ++ "main".data ++ " !".data ++ "proxy.example.com".data] :=
  C4_template_structure
    ⟨"main".data, "/kh path".data, "/id".data, "/cert".data,
      "proxy.example.com".data, "3080".data, "/bin/tsh".data⟩
    (by decide) (by decide) (by decide) (by decide) (by decide) (by decide)
    (by decide)

end TshConfig
